import Mathlib

/-!
Verification of the opentask platform-abstraction layer.

This file shallowly embeds the Go sources of the opentask repository:
the canonical data model (pkg/models), the platform error taxonomy and
registry (pkg/platforms), and the Linear and Jira backend adapters
(pkg/platforms/linear, pkg/platforms/jira).  Go strings are Lean
`String`, Go `float64` priorities are `ℚ` (only compared for equality
with small integers), Go `time.Time` is an abstract `Nat` instant, Go
maps with `any` values are association lists over a `GoVal` tag union,
and fallible Go functions return `Except`.  Network transports are
abstracted as explicit oracle records passed to each adapter operation.
-/

namespace OpenTask

/-- Go tag union for values stored in `map[string]any` configuration and
metadata mappings. -/
inductive GoVal where
  | str (s : String)
  | num (q : ℚ)
  | boolean (b : Bool)
  deriving DecidableEq, Repr

/-- Lookup in a Go `map[string]any`, modelled as an association list with
distinct keys. -/
def goMapGet (m : List (String × GoVal)) (key : String) : Option GoVal :=
  match m.find? (fun kv => kv.1 = key) with
  | some kv => some kv.2
  | none => none

/-! ## Canonical data model (pkg/models/task.go) -/

/-- `models.StatusOpen` — Go `TaskStatus` is a string type. -/
def StatusOpen : String := "open"

/-- `models.StatusInProgress`. -/
def StatusInProgress : String := "in_progress"

/-- `models.StatusDone`. -/
def StatusDone : String := "done"

/-- `models.StatusCancelled`. -/
def StatusCancelled : String := "cancelled"

/-- `TaskStatus.IsValid` from pkg/models/task.go. -/
def statusIsValid (s : String) : Bool :=
  s == StatusOpen || s == StatusInProgress || s == StatusDone || s == StatusCancelled

/-- `models.PriorityLow`. -/
def PriorityLow : String := "low"

/-- `models.PriorityMedium`. -/
def PriorityMedium : String := "medium"

/-- `models.PriorityHigh`. -/
def PriorityHigh : String := "high"

/-- `models.PriorityUrgent`. -/
def PriorityUrgent : String := "urgent"

/-- `Priority.IsValid` from pkg/models/task.go. -/
def priorityIsValid (p : String) : Bool :=
  p == PriorityLow || p == PriorityMedium || p == PriorityHigh || p == PriorityUrgent

/-- Canonical `models.User`. -/
structure User where
  id : String := ""
  name : String := ""
  email : String := ""
  username : String := ""
  avatar : String := ""
  platform : String := ""
  active : Bool := false
  createdAt : Nat := 0
  updatedAt : Nat := 0
  metadata : Option (List (String × GoVal)) := none
  deriving DecidableEq, Repr

/-- Canonical `models.Task`.  `metadata := none` models a nil Go map. -/
structure Task where
  id : String := ""
  title : String := ""
  description : String := ""
  status : String := ""
  priority : String := ""
  assignee : Option User := none
  platform : String := ""
  projectID : String := ""
  labels : List String := []
  createdAt : Nat := 0
  updatedAt : Nat := 0
  dueDate : Option Nat := none
  metadata : Option (List (String × GoVal)) := none
  deriving DecidableEq, Repr

/-- `models.NewTask`: stamps both timestamps to the current instant and
allocates an empty metadata map. -/
def newTask (title platform : String) (now : Nat) : Task :=
  { title := title
    platform := platform
    status := StatusOpen
    priority := PriorityMedium
    createdAt := now
    updatedAt := now
    metadata := some [] }

/-- `Task.SetStatus`: writes only when the status is a valid enum member,
refreshing `UpdatedAt`; otherwise a silent no-op. -/
def taskSetStatus (t : Task) (status : String) (now : Nat) : Task :=
  if statusIsValid status then { t with status := status, updatedAt := now } else t

/-- `Task.SetPriority`: same silent-no-op discipline as `SetStatus`. -/
def taskSetPriority (t : Task) (priority : String) (now : Nat) : Task :=
  if priorityIsValid priority then { t with priority := priority, updatedAt := now } else t

/-- `Task.GetMetadata`: a nil map reads as absent. -/
def taskGetMetadata (t : Task) (key : String) : Option GoVal :=
  match t.metadata with
  | none => none
  | some m => goMapGet m key

/-- A mutation through one of the two enum setters. -/
inductive TaskOp where
  | setStatus (s : String) (now : Nat)
  | setPriority (p : String) (now : Nat)
  deriving DecidableEq, Repr

/-- Apply a single setter call. -/
def applyTaskOp (t : Task) (op : TaskOp) : Task :=
  match op with
  | .setStatus s now => taskSetStatus t s now
  | .setPriority p now => taskSetPriority t p now

/-- Apply a sequence of setter calls left to right. -/
def applyTaskOps (t : Task) : List TaskOp → Task
  | [] => t
  | op :: rest => applyTaskOps (applyTaskOp t op) rest

/-! ## Error taxonomy (pkg/platforms, errors part) -/

/-- `platforms.ErrAuthentication`. -/
def ErrAuthentication : String := "authentication_failed"

/-- `platforms.ErrNotFound`. -/
def ErrNotFound : String := "not_found"

/-- `platforms.ErrInvalidInput`. -/
def ErrInvalidInput : String := "invalid_input"

/-- `platforms.ErrPlatformAPI`. -/
def ErrPlatformAPI : String := "platform_api_error"

/-- `platforms.ErrPlatformNotSupported`. -/
def ErrPlatformNotSupported : String := "platform_not_supported"

/-- `platforms.ErrInvalidConfig`. -/
def ErrInvalidConfig : String := "invalid_config"

/-- `platforms.ErrRateLimited`. -/
def ErrRateLimited : String := "rate_limited"

/-- `platforms.PlatformError`.  The wrapped Go `Cause` error is modelled
by its message. -/
structure PlatformError where
  code : String
  message : String := ""
  platform : String := ""
  taskID : String := ""
  causeMsg : Option String := none
  deriving DecidableEq, Repr

/-- `getErrorMessage` from the errors file. -/
def getErrorMessage (code : String) : String :=
  if code = ErrAuthentication then "Authentication failed"
  else if code = ErrNotFound then "Resource not found"
  else if code = ErrInvalidInput then "Invalid input provided"
  else if code = ErrPlatformAPI then "Platform API error"
  else if code = "sync_conflict" then "Synchronization conflict"
  else if code = ErrPlatformNotSupported then "Platform not supported"
  else if code = ErrInvalidConfig then "Invalid configuration"
  else if code = ErrRateLimited then "Rate limit exceeded"
  else if code = "permission_denied" then "Permission denied"
  else if code = "network_error" then "Network error"
  else "Unknown error"

/-- `platforms.NewPlatformError`. -/
def NewPlatformError (code platform taskID : String) (cause : Option String) : PlatformError :=
  { code := code
    message := getErrorMessage code
    platform := platform
    taskID := taskID
    causeMsg := cause }

/-- `PlatformError.Is`: code-only comparison against another
`*PlatformError` target. -/
def platformErrorIs (e target : PlatformError) : Bool :=
  e.code == target.code

/-- The error code of an `Except` adapter result, if it failed. -/
def exceptErrCode {α : Type} : Except PlatformError α → Option String
  | .error e => some e.code
  | .ok _ => none

/-!
`IsAuthenticationError` / `IsNotFoundError` / `IsRateLimitError`
(errors file, lines 153-168).  Each helper reads

  var pe *PlatformError
  return err != nil && (err == &PlatformError{Code: c} ||
      (pe != nil && pe.Code == c))

The argument carried inside a non-nil `error` interface is modelled as a
heap address paired with the pointee; the comparison against the address
of the composite literal allocated inside the helper is a pointer
comparison, so the helper receives the fresh allocation's address as an
explicit parameter.  The local `pe` is declared and never assigned, so it
stays the nil pointer, modelled by the literal `none` below.
-/

/-- The shared body of the three error-kind helpers, parameterized by the
code of the composite literal compared against. -/
def errKindHelper (code : String) (err : Option (Nat × PlatformError)) (freshAddr : Nat) : Bool :=
  let pe : Option PlatformError := none
  match err with
  | none => false
  | some (addr, _) =>
      (addr == freshAddr) ||
        (match pe with
         | none => false
         | some p => p.code == code)

/-- `platforms.IsAuthenticationError`. -/
def IsAuthenticationError (err : Option (Nat × PlatformError)) (freshAddr : Nat) : Bool :=
  errKindHelper ErrAuthentication err freshAddr

/-- `platforms.IsNotFoundError`. -/
def IsNotFoundError (err : Option (Nat × PlatformError)) (freshAddr : Nat) : Bool :=
  errKindHelper ErrNotFound err freshAddr

/-- `platforms.IsRateLimitError`. -/
def IsRateLimitError (err : Option (Nat × PlatformError)) (freshAddr : Nat) : Bool :=
  errKindHelper ErrRateLimited err freshAddr

/-! ## Linear adapter status and priority reconciliation
(pkg/models/user.go Linear types part, lines 402-446, and the Linear
client's `convertToLinearStateType`). -/

/-- `convertLinearStatus`: Linear workflow-state type to canonical status. -/
def convertLinearStatus (stateType : String) : String :=
  if stateType = "unstarted" ∨ stateType = "backlog" then StatusOpen
  else if stateType = "started" then StatusInProgress
  else if stateType = "completed" then StatusDone
  else if stateType = "canceled" ∨ stateType = "cancelled" then StatusCancelled
  else StatusOpen

/-- `convertLinearPriority`: Linear numeric priority (Go `float64`) to
canonical priority. -/
def convertLinearPriority (priority : ℚ) : String :=
  if priority = 1 then PriorityUrgent
  else if priority = 2 then PriorityHigh
  else if priority = 3 then PriorityMedium
  else if priority = 4 then PriorityLow
  else PriorityMedium

/-- `convertToLinearPriority`: canonical priority to the Linear number. -/
def convertToLinearPriority (priority : String) : ℚ :=
  if priority = PriorityUrgent then 1
  else if priority = PriorityHigh then 2
  else if priority = PriorityMedium then 3
  else if priority = PriorityLow then 4
  else 3

/-- `convertToLinearStateType` (Linear client file): canonical status to
the Linear workflow-state type. -/
def convertToLinearStateType (status : String) : String :=
  if status = StatusOpen then "unstarted"
  else if status = StatusInProgress then "started"
  else if status = StatusDone then "completed"
  else if status = StatusCancelled then "canceled"
  else "unstarted"

/-! ## Jira adapter status and priority reconciliation
(pkg/platforms/jira/types.go and the Jira client's
`convertFromJiraStatus`). -/

/-- Go `strings.ToLower` on the ASCII vocabulary the adapters match:
char-wise lowercasing. -/
def strToLower (s : String) : String :=
  String.mk (s.data.map Char.toLower)

/-- `convertJiraStatus`: Jira status-category key (case-insensitive) to
canonical status. -/
def convertJiraStatus (statusCategory : String) : String :=
  if strToLower statusCategory = "new" ∨ strToLower statusCategory = "to do" ∨
      strToLower statusCategory = "todo" then StatusOpen
  else if strToLower statusCategory = "indeterminate" ∨
      strToLower statusCategory = "in progress" then StatusInProgress
  else if strToLower statusCategory = "done" ∨ strToLower statusCategory = "complete" then StatusDone
  else if strToLower statusCategory = "cancelled" ∨
      strToLower statusCategory = "canceled" then StatusCancelled
  else StatusOpen

/-- `convertJiraPriority`: Jira priority name (case-insensitive) to
canonical priority. -/
def convertJiraPriority (priority : String) : String :=
  if strToLower priority = "highest" ∨ strToLower priority = "critical" ∨
      strToLower priority = "blocker" then PriorityUrgent
  else if strToLower priority = "high" ∨ strToLower priority = "major" then PriorityHigh
  else if strToLower priority = "medium" ∨ strToLower priority = "normal" then PriorityMedium
  else if strToLower priority = "low" ∨ strToLower priority = "minor" ∨
      strToLower priority = "trivial" ∨ strToLower priority = "lowest" then PriorityLow
  else PriorityMedium

/-- `convertToJiraPriority`: canonical priority to the Jira name. -/
def convertToJiraPriority (priority : String) : String :=
  if priority = PriorityUrgent then "Highest"
  else if priority = PriorityHigh then "High"
  else if priority = PriorityMedium then "Medium"
  else if priority = PriorityLow then "Low"
  else "Medium"

/-- `convertToJiraStatus`: canonical status to the Jira status name used
for JQL and transition lookup. -/
def convertToJiraStatus (status : String) : String :=
  if status = StatusOpen then "To Do"
  else if status = StatusInProgress then "In Progress"
  else if status = StatusDone then "Done"
  else if status = StatusCancelled then "Cancelled"
  else "To Do"

/-- `convertFromJiraStatus` (Jira client file): free-text Jira status name
(case-insensitive) to canonical status. -/
def convertFromJiraStatus (jiraStatus : String) : String :=
  if strToLower jiraStatus = "to do" ∨ strToLower jiraStatus = "open" ∨
      strToLower jiraStatus = "new" ∨ strToLower jiraStatus = "created" then StatusOpen
  else if strToLower jiraStatus = "in progress" ∨ strToLower jiraStatus = "in development" ∨
      strToLower jiraStatus = "doing" then StatusInProgress
  else if strToLower jiraStatus = "done" ∨ strToLower jiraStatus = "closed" ∨
      strToLower jiraStatus = "resolved" ∨ strToLower jiraStatus = "completed" then StatusDone
  else if strToLower jiraStatus = "cancelled" ∨ strToLower jiraStatus = "canceled" ∨
      strToLower jiraStatus = "rejected" then StatusCancelled
  else StatusOpen

/-- The Linear workflow-state types matched by `convertLinearStatus`. -/
def linearKnownStateTypes : List String :=
  ["unstarted", "backlog", "started", "completed", "canceled", "cancelled"]

/-- The lowercased status-category keys matched by `convertJiraStatus`. -/
def jiraKnownStatusCategories : List String :=
  ["new", "to do", "todo", "indeterminate", "in progress", "done", "complete",
   "cancelled", "canceled"]

/-- The lowercased status names matched by `convertFromJiraStatus`. -/
def jiraKnownStatusNames : List String :=
  ["to do", "open", "new", "created", "in progress", "in development", "doing",
   "done", "closed", "resolved", "completed", "cancelled", "canceled", "rejected"]

/-! ## TaskFilter and the JQL builder (Jira client file, `buildJQLQuery`). -/

/-- `models.TaskFilter`.  Enum pointers are `Option`; Go zero-value
strings and slices are `""` and `[]`. -/
structure TaskFilter where
  platform : Option String := none
  status : Option String := none
  priority : Option String := none
  assignee : String := ""
  projectID : String := ""
  labels : List String := []
  query : String := ""
  limit : Int := 0
  offset : Int := 0
  deriving DecidableEq, Repr

/-- `buildJQLQuery`: conjunctively AND present predicates in source order
(status, assignee, project, labels group, free text), then append the
fixed sort suffix.  A nil filter is `none`. -/
def buildJQLQuery (filter : Option TaskFilter) : String :=
  match filter with
  | none => "ORDER BY created DESC"
  | some f =>
      let conditions : List String :=
        (match f.status with
         | some s => ["status = \"" ++ convertToJiraStatus s ++ "\""]
         | none => []) ++
        (if f.assignee ≠ "" then
          if f.assignee = "me" then ["assignee = currentUser()"]
          else ["assignee = \"" ++ f.assignee ++ "\""]
         else []) ++
        (if f.projectID ≠ "" then ["project = \"" ++ f.projectID ++ "\""] else []) ++
        (if f.labels.length > 0 then
          ["(" ++ String.intercalate " AND "
              (f.labels.map (fun l => "labels = \"" ++ l ++ "\"")) ++ ")"]
         else []) ++
        (if f.query ≠ "" then ["text ~ \"" ++ f.query ++ "\""] else [])
      let q := String.intercalate " AND " conditions
      if q = "" then "ORDER BY created DESC" else q ++ " ORDER BY created DESC"

/-! ## Linear wire types and inbound conversion
(pkg/models/user.go Linear types part, `LinearIssue` and `ToTask`). -/

/-- `LinearIssueState`. -/
structure LinearState where
  id : String := ""
  name : String := ""
  type : String := ""
  color : String := ""
  deriving DecidableEq, Repr

/-- `LinearUser`. -/
structure LinearUserW where
  id : String := ""
  name : String := ""
  email : String := ""
  displayName : String := ""
  avatarURL : String := ""
  active : Bool := false
  deriving DecidableEq, Repr

/-- `LinearTeam`. -/
structure LinearTeam where
  id : String := ""
  name : String := ""
  key : String := ""
  description : String := ""
  deriving DecidableEq, Repr

/-- `LinearProject`. -/
structure LinearProjectW where
  id : String := ""
  name : String := ""
  description : String := ""
  slugID : String := ""
  deriving DecidableEq, Repr

/-- `LinearLabel`. -/
structure LinearLabel where
  id : String := ""
  name : String := ""
  color : String := ""
  deriving DecidableEq, Repr

/-- `LinearIssue`. -/
structure LinearIssue where
  id : String := ""
  identifier : String := ""
  title : String := ""
  description : String := ""
  priority : ℚ := 0
  state : LinearState := {}
  assignee : Option LinearUserW := none
  team : LinearTeam := {}
  project : Option LinearProjectW := none
  labels : List LinearLabel := []
  createdAt : Nat := 0
  updatedAt : Nat := 0
  dueDate : Option Nat := none
  url : String := ""
  deriving DecidableEq, Repr

/-- `LinearUser.ToUser`. -/
def linearUserToUser (lu : LinearUserW) : User :=
  { id := lu.id
    name := lu.displayName
    email := lu.email
    avatar := lu.avatarURL
    platform := "linear"
    active := lu.active
    metadata := some [("linear_id", .str lu.id)] }

/-- `LinearIssue.ToTask`: inbound field mapping for Linear. -/
def linearIssueToTask (li : LinearIssue) : Task :=
  { id := li.identifier
    title := li.title
    description := li.description
    status := convertLinearStatus li.state.type
    priority := convertLinearPriority li.priority
    assignee := li.assignee.map linearUserToUser
    platform := "linear"
    projectID := match li.project with
      | some p => p.id
      | none => ""
    labels := li.labels.map (fun l => l.name)
    createdAt := li.createdAt
    updatedAt := li.updatedAt
    dueDate := li.dueDate
    metadata := some
      [("linear_id", .str li.id),
       ("linear_url", .str li.url),
       ("team", .str li.team.key),
       ("state_id", .str li.state.id),
       ("state_color", .str li.state.color)] }

/-! ## Jira wire types and inbound conversion
(pkg/platforms/jira/types.go, `JiraIssue.ToTask`). -/

/-- The parts of `jira.Status` the adapter reads. -/
structure JiraStatus where
  name : String := ""
  statusCategoryKey : String := ""
  deriving DecidableEq, Repr

/-- The parts of `jira.User` the adapter reads from an assignee. -/
structure JiraUserW where
  accountID : String := ""
  displayName : String := ""
  emailAddress : String := ""
  active : Bool := false
  deriving DecidableEq, Repr

/-- The parts of `jira.IssueFields` the adapter reads.  Pointer fields are
`Option`; `duedate = 0` models the zero `jira.Date`. -/
structure JiraIssueFields where
  summary : String := ""
  description : String := ""
  status : Option JiraStatus := none
  priorityName : Option String := none
  assignee : Option JiraUserW := none
  labels : Option (List String) := none
  created : Nat := 0
  updated : Nat := 0
  duedate : Nat := 0
  projectKey : String := ""
  typeName : String := ""
  deriving DecidableEq, Repr

/-- The parts of `jira.Issue` the adapter reads. -/
structure JiraIssue where
  id : String := ""
  key : String := ""
  self : String := ""
  fields : JiraIssueFields := {}
  deriving DecidableEq, Repr

/-- `JiraIssue.ToTask`: inbound field mapping for Jira, with explicit
defaults for absent status/priority and conditional metadata keys. -/
def jiraIssueToTask (ji : JiraIssue) : Task :=
  { id := ji.key
    title := ji.fields.summary
    description := ji.fields.description
    status := match ji.fields.status with
      | some st => convertJiraStatus st.statusCategoryKey
      | none => StatusOpen
    priority := match ji.fields.priorityName with
      | some p => convertJiraPriority p
      | none => PriorityMedium
    assignee := ji.fields.assignee.map (fun a =>
      { id := a.accountID
        name := a.displayName
        email := a.emailAddress
        platform := "jira"
        active := a.active
        metadata := some [("jira_account_id", .str a.accountID)] })
    platform := "jira"
    projectID := ji.fields.projectKey
    labels := ji.fields.labels.getD []
    createdAt := ji.fields.created
    updatedAt := ji.fields.updated
    dueDate := if ji.fields.duedate ≠ 0 then some ji.fields.duedate else none
    metadata := some
      ([("jira_id", .str ji.id), ("jira_self", .str ji.self)] ++
        (if ji.fields.typeName ≠ "" then [("issue_type", GoVal.str ji.fields.typeName)] else []) ++
        (match ji.fields.status with
         | some st => [("status_name", GoVal.str st.name),
                       ("status_category", GoVal.str st.statusCategoryKey)]
         | none => []) ++
        (match ji.fields.priorityName with
         | some p => [("priority_name", GoVal.str p)]
         | none => [])) }

/-! ## Transport abstractions and GetTask for both adapters. -/

/-- A transport-level failure: an optional HTTP status observed by the
transport and the underlying error message. -/
structure TransportErr where
  status : Option Nat := none
  msg : String := ""
  deriving DecidableEq, Repr

/-- Outcome of a Jira REST call that yields an issue: grouped response
value plus error, as the go-jira client returns them. -/
inductive JiraHttpResult where
  | ok (issue : JiraIssue)
  | err (status : Option Nat) (msg : String)
  deriving DecidableEq, Repr

/-- Jira `Client.GetTask`: an error with a 404 response becomes
`not_found` carrying the id; any other failure becomes
`platform_api_error`. -/
def jiraGetTask (id : String) (result : JiraHttpResult) : Except PlatformError Task :=
  match result with
  | .err status msg =>
      if status = some 404 then
        .error (NewPlatformError ErrNotFound "jira" id (some "issue not found"))
      else
        .error (NewPlatformError ErrPlatformAPI "jira" id (some ("failed to get issue: " ++ msg)))
  | .ok issue => .ok (jiraIssueToTask issue)

/-- Linear `Client.GetTask`: every GraphQL transport failure is wrapped as
`platform_api_error` carrying the id; the HTTP status inside the
transport error is never inspected. -/
def linearGetTask (id : String) (result : Except TransportErr LinearIssue) :
    Except PlatformError Task :=
  match result with
  | .error e =>
      .error (NewPlatformError ErrPlatformAPI "linear" id (some ("failed to get issue: " ++ e.msg)))
  | .ok issue => .ok (linearIssueToTask issue)

/-! ## Linear UpdateTask (Linear client file, lines 157-209). -/

/-- The outbound `input` map built by Linear `UpdateTask`: exactly title,
description, and priority. -/
def linearUpdateInput (task : Task) : List (String × GoVal) :=
  [("title", .str task.title),
   ("description", .str task.description),
   ("priority", .num (convertToLinearPriority task.priority))]

/-- Result of the Linear `issueUpdate` GraphQL mutation. -/
structure LinearIssueUpdateResult where
  success : Bool := false
  issue : LinearIssue := {}
  deriving DecidableEq, Repr

/-- Oracle for the Linear GraphQL transport during an update.  The issue
id is passed as the untyped metadata value, exactly as the source
forwards it without a type assertion. -/
structure LinearTransport where
  issueUpdate : GoVal → List (String × GoVal) → Except TransportErr LinearIssueUpdateResult

/-- Linear `Client.UpdateTask`: requires the `linear_id` metadata key and
fails with `invalid_input` when it is absent; otherwise sends only the
title/description/priority payload. -/
def linearUpdateTask (task : Task) (tr : LinearTransport) : Except PlatformError Task :=
  match taskGetMetadata task "linear_id" with
  | none =>
      .error (NewPlatformError ErrInvalidInput "linear" task.id
        (some "linear_id not found in task metadata"))
  | some linearID =>
      match tr.issueUpdate linearID (linearUpdateInput task) with
      | .error e =>
          .error (NewPlatformError ErrPlatformAPI "linear" task.id
            (some ("failed to update issue: " ++ e.msg)))
      | .ok res =>
          if res.success then .ok (linearIssueToTask res.issue)
          else .error (NewPlatformError ErrPlatformAPI "linear" task.id
            (some "issue update failed"))

/-! ## Jira UpdateTask and transition lookup
(Jira client file, lines 176-265 and 461-507). -/

/-- A Jira workflow transition: its id and the name of the target status. -/
structure JiraTransition where
  id : String := ""
  toName : String := ""
  deriving DecidableEq, Repr

/-- The issue fields sent by Jira `UpdateTask`. -/
structure JiraUpdateFields where
  summary : String := ""
  description : String := ""
  priorityName : Option String := none
  labels : Option (List String) := none
  deriving DecidableEq, Repr

/-- Oracle for the Jira REST transport during an update.  `updateIssue`
may return no issue body (the source then re-fetches). -/
structure JiraTransport where
  getIssue : String → JiraHttpResult
  getTransitions : String → Except String (List JiraTransition)
  doTransition : String → String → Except String Unit
  updateIssue : String → JiraUpdateFields → Except String (Option JiraIssue)

/-- The native identifier Jira `UpdateTask` addresses: the `jira_id`
metadata value when present, otherwise the canonical task id (the
source's explicit fallback). -/
def jiraResolveUpdateID (task : Task) : GoVal :=
  match taskGetMetadata task "jira_id" with
  | some v => v
  | none => .str task.id

/-- `transitionIssue`: fetch available transitions, pick the one whose
target name equals the canonical-preferred Jira status name, and invoke
it; a missing transition is a fatal `platform_api_error`. -/
def jiraTransitionIssue (tr : JiraTransport) (issueID targetStatus : String) :
    Except PlatformError Unit :=
  match tr.getTransitions issueID with
  | .error msg =>
      .error (NewPlatformError ErrPlatformAPI "jira" issueID
        (some ("failed to get transitions: " ++ msg)))
  | .ok transitions =>
      let targetJiraStatus := convertToJiraStatus targetStatus
      match transitions.find? (fun t => t.toName = targetJiraStatus) with
      | none =>
          .error (NewPlatformError ErrPlatformAPI "jira" issueID
            (some ("no transition available to status: " ++ targetJiraStatus)))
      | some t =>
          match tr.doTransition issueID t.id with
          | .error msg =>
              .error (NewPlatformError ErrPlatformAPI "jira" issueID
                (some ("failed to transition issue: " ++ msg)))
          | .ok _ => .ok ()

/-- Jira `Client.UpdateTask`.  `none` models the runtime nil-pointer
crash the source hits when the fetched issue carries no status.  The
identifier used for every wire call is `jiraResolveUpdateID`; an
`invalid_input` error arises only when the `jira_id` metadata value is
not a string. -/
def jiraUpdateTask (task : Task) (tr : JiraTransport) :
    Option (Except PlatformError Task) :=
  match jiraResolveUpdateID task with
  | .str jiraIDStr =>
      match tr.getIssue jiraIDStr with
      | .err _ msg =>
          some (.error (NewPlatformError ErrPlatformAPI "jira" task.id
            (some ("failed to get current issue: " ++ msg))))
      | .ok currentIssue =>
          match currentIssue.fields.status with
          | none => none
          | some st =>
              let currentStatus := convertFromJiraStatus st.name
              let transitioned : Except PlatformError Unit :=
                if currentStatus ≠ task.status then
                  jiraTransitionIssue tr jiraIDStr task.status
                else .ok ()
              match transitioned with
              | .error e => some (.error e)
              | .ok _ =>
                  let updateFields : JiraUpdateFields :=
                    { summary := task.title
                      description := task.description
                      priorityName :=
                        if task.priority ≠ "" then some (convertToJiraPriority task.priority)
                        else none
                      labels := if task.labels.length > 0 then some task.labels else none }
                  match tr.updateIssue jiraIDStr updateFields with
                  | .error msg =>
                      some (.error (NewPlatformError ErrPlatformAPI "jira" task.id
                        (some ("failed to update issue: " ++ msg))))
                  | .ok (some updatedIssue) => some (.ok (jiraIssueToTask updatedIssue))
                  | .ok none =>
                      match tr.getIssue jiraIDStr with
                      | .err _ msg =>
                          some (.error (NewPlatformError ErrPlatformAPI "jira" task.id
                            (some ("failed to get updated issue: " ++ msg))))
                      | .ok updatedIssue => some (.ok (jiraIssueToTask updatedIssue))
  | _ =>
      some (.error (NewPlatformError ErrInvalidInput "jira" task.id
        (some "invalid jira_id in task metadata")))

/-! ## Factories and the registry
(pkg/platforms registry part, pkg/platforms/linear/factory.go, and the
Jira factory file). -/

/-- Linear `Config`. -/
structure LinearConfig where
  token : String := ""
  baseURL : String := ""
  deriving DecidableEq, Repr

/-- Jira `Config`. -/
structure JiraConfig where
  baseURL : String := ""
  email : String := ""
  token : String := ""
  deriving DecidableEq, Repr

/-- Go `strings.TrimSuffix`: drop one trailing occurrence if present. -/
def trimSuffix (s suf : String) : String :=
  if s.endsWith suf then s.dropRight suf.length else s

/-- Linear `parseConfig`: `token` must be present as a non-empty string;
`base_url` is optional. -/
def linearParseConfig (config : List (String × GoVal)) : Except String LinearConfig :=
  match goMapGet config "token" with
  | some (.str token) =>
      let baseURL := match goMapGet config "base_url" with
        | some (.str b) => b
        | _ => ""
      if token = "" then .error "token cannot be empty"
      else .ok { token := token, baseURL := baseURL }
  | _ => .error "token is required and must be a string"

/-- Jira `parseConfig`: `base_url`, `email`, `token` must all be present
as non-empty strings and the base URL must carry an http(s) scheme. -/
def jiraParseConfig (config : List (String × GoVal)) : Except String JiraConfig :=
  match goMapGet config "base_url" with
  | some (.str rawBase) =>
      let baseURL := trimSuffix rawBase "/"
      match goMapGet config "email" with
      | some (.str email) =>
          match goMapGet config "token" with
          | some (.str token) =>
              if baseURL = "" then .error "base_url cannot be empty"
              else if email = "" then .error "email cannot be empty"
              else if token = "" then .error "token cannot be empty"
              else if ¬ (baseURL.startsWith "http://" ∨ baseURL.startsWith "https://") then
                .error "base_url must start with http:// or https://"
              else .ok { baseURL := baseURL, email := email, token := token }
          | _ => .error "token is required and must be a string"
      | _ => .error "email is required and must be a string"
  | _ => .error "base_url is required and must be a string"

/-- The connection state a constructed Linear client holds. -/
structure LinearClient where
  token : String := ""
  baseURL : String := ""
  deriving DecidableEq, Repr

/-- The connection state a constructed Jira client holds. -/
structure JiraClient where
  baseURL : String := ""
  email : String := ""
  deriving DecidableEq, Repr

/-- Linear `NewClient`: empty token is `invalid_config` before any
network attempt; an absent base URL defaults to the public endpoint. -/
def linearNewClient (cfg : LinearConfig) : Except PlatformError LinearClient :=
  if cfg.token = "" then
    .error (NewPlatformError ErrInvalidConfig "linear" "" (some "API token is required"))
  else
    .ok { token := cfg.token
          baseURL := if cfg.baseURL = "" then "https://api.linear.app/graphql" else cfg.baseURL }

/-- Jira `NewClient`: missing base URL or missing email/token are
`invalid_config` before any network attempt.  The go-jira constructor's
URL parse is abstracted as succeeding. -/
def jiraNewClient (cfg : JiraConfig) : Except PlatformError JiraClient :=
  if cfg.baseURL = "" then
    .error (NewPlatformError ErrInvalidConfig "jira" "" (some "base URL is required"))
  else if cfg.email = "" ∨ cfg.token = "" then
    .error (NewPlatformError ErrInvalidConfig "jira" "" (some "email and token are required"))
  else
    .ok { baseURL := cfg.baseURL, email := cfg.email }

/-- A client produced by the registry. -/
inductive CreatedClient where
  | linear (c : LinearClient)
  | jira (c : JiraClient)
  deriving DecidableEq, Repr

/-- `Registry.Create` over the two factories registered at startup
("linear" and "jira").  Lookup miss is `platform_not_supported`;
`ValidateConfig` (the factory's `parseConfig`) failure is wrapped as
`invalid_config`; otherwise the factory's `Create` runs `parseConfig`
again (identical pure result) and constructs the client. -/
def registryCreate (platformType : String) (config : List (String × GoVal)) :
    Except PlatformError CreatedClient :=
  if platformType = "linear" then
    match linearParseConfig config with
    | .error msg => .error (NewPlatformError ErrInvalidConfig platformType "" (some msg))
    | .ok cfg => (linearNewClient cfg).map CreatedClient.linear
  else if platformType = "jira" then
    match jiraParseConfig config with
    | .error msg => .error (NewPlatformError ErrInvalidConfig platformType "" (some msg))
    | .ok cfg => (jiraNewClient cfg).map CreatedClient.jira
  else
    .error (NewPlatformError ErrPlatformNotSupported platformType "" none)

/-! ## Theorems -/

/-- C1: every native status value is forward-mapped by each adapter
(Linear state types; Jira status-category keys; Jira free-text status
names, matched case-insensitively) to one of the four canonical
statuses, and any native value outside the adapter's known set maps to
canonical open — the mappings are total and never fail. -/
theorem claim_C1_forward_status_mapping_total :
    (∀ s : String, statusIsValid (convertLinearStatus s) = true) ∧
    (∀ s : String, statusIsValid (convertJiraStatus s) = true) ∧
    (∀ s : String, statusIsValid (convertFromJiraStatus s) = true) ∧
    (∀ s : String, s ∉ linearKnownStateTypes → convertLinearStatus s = StatusOpen) ∧
    (∀ s : String, strToLower s ∉ jiraKnownStatusCategories → convertJiraStatus s = StatusOpen) ∧
    (∀ s : String, strToLower s ∉ jiraKnownStatusNames → convertFromJiraStatus s = StatusOpen) := by
  refine ⟨?_, ?_, ?_, ?_, ?_, ?_⟩
  · intro s; unfold convertLinearStatus; split_ifs <;> rfl
  · intro s; unfold convertJiraStatus; split_ifs <;> rfl
  · intro s; unfold convertFromJiraStatus; split_ifs <;> rfl
  · intro s h
    simp only [linearKnownStateTypes, List.mem_cons, List.not_mem_nil, or_false] at h
    push_neg at h
    unfold convertLinearStatus
    split_ifs <;> first | rfl | tauto
  · intro s h
    simp only [jiraKnownStatusCategories, List.mem_cons, List.not_mem_nil, or_false] at h
    push_neg at h
    unfold convertJiraStatus
    split_ifs <;> first | rfl | tauto
  · intro s h
    simp only [jiraKnownStatusNames, List.mem_cons, List.not_mem_nil, or_false] at h
    push_neg at h
    unfold convertFromJiraStatus
    split_ifs <;> first | rfl | tauto

/-- Witness for C1 at concrete inputs: a recognized and an unrecognized
native value for each adapter. -/
theorem claim_C1_forward_status_mapping_total_witness :
    statusIsValid (convertLinearStatus "started") = true ∧
    statusIsValid (convertJiraStatus "Indeterminate") = true ∧
    statusIsValid (convertFromJiraStatus "Resolved") = true ∧
    convertLinearStatus "triage" = StatusOpen ∧
    convertJiraStatus "Weird Category" = StatusOpen ∧
    convertFromJiraStatus "Blocked" = StatusOpen :=
  ⟨claim_C1_forward_status_mapping_total.1 "started",
   claim_C1_forward_status_mapping_total.2.1 "Indeterminate",
   claim_C1_forward_status_mapping_total.2.2.1 "Resolved",
   claim_C1_forward_status_mapping_total.2.2.2.1 "triage" (by decide),
   claim_C1_forward_status_mapping_total.2.2.2.2.1 "Weird Category" (by decide),
   claim_C1_forward_status_mapping_total.2.2.2.2.2 "Blocked" (by decide)⟩

/-- C2: for every canonical status, reverse-mapping to the adapter's
representative native value and forward-mapping back is the identity,
for both the Linear and the Jira adapter. -/
theorem claim_C2_status_roundtrip :
    ∀ s : String, statusIsValid s = true →
      convertLinearStatus (convertToLinearStateType s) = s ∧
      convertFromJiraStatus (convertToJiraStatus s) = s := by
  intro s hs
  simp only [statusIsValid, Bool.or_eq_true, beq_iff_eq] at hs
  rcases hs with ((h | h) | h) | h <;> subst h <;> exact ⟨by decide, by decide⟩

/-- Witness for C2 at all four canonical statuses. -/
theorem claim_C2_status_roundtrip_witness :
    (convertLinearStatus (convertToLinearStateType StatusOpen) = StatusOpen ∧
      convertFromJiraStatus (convertToJiraStatus StatusOpen) = StatusOpen) ∧
    (convertLinearStatus (convertToLinearStateType StatusInProgress) = StatusInProgress ∧
      convertFromJiraStatus (convertToJiraStatus StatusInProgress) = StatusInProgress) ∧
    (convertLinearStatus (convertToLinearStateType StatusDone) = StatusDone ∧
      convertFromJiraStatus (convertToJiraStatus StatusDone) = StatusDone) ∧
    (convertLinearStatus (convertToLinearStateType StatusCancelled) = StatusCancelled ∧
      convertFromJiraStatus (convertToJiraStatus StatusCancelled) = StatusCancelled) :=
  ⟨claim_C2_status_roundtrip StatusOpen (by decide),
   claim_C2_status_roundtrip StatusInProgress (by decide),
   claim_C2_status_roundtrip StatusDone (by decide),
   claim_C2_status_roundtrip StatusCancelled (by decide)⟩

/-- The fully-populated filter of the C3 test vector. -/
def c3Filter : TaskFilter :=
  { status := some StatusOpen
    assignee := "me"
    projectID := "TEST"
    labels := ["bug"]
    query := "urgent" }

/-- A filter with no predicates set (all fields at their Go zero value). -/
def emptyFilter : TaskFilter := {}

/-- C3: the JQL builder produces exactly the expected conjunction with
the fixed sort suffix on the fully-populated filter, and exactly the
bare sort clause on a nil filter and on a filter with no predicates. -/
theorem claim_C3_jql_builder_exact :
    buildJQLQuery (some c3Filter) =
      "status = \"To Do\" AND assignee = currentUser() AND project = \"TEST\" AND (labels = \"bug\") AND text ~ \"urgent\" ORDER BY created DESC" ∧
    buildJQLQuery none = "ORDER BY created DESC" ∧
    buildJQLQuery (some emptyFilter) = "ORDER BY created DESC" :=
  ⟨by decide, rfl, by decide⟩

/-- C4: the Linear numeric priority mapping sends 0 to medium, 1 to
urgent, 2 to high, 3 to medium, 4 to low, and every other number to
medium. -/
theorem claim_C4_linear_priority_mapping :
    convertLinearPriority 0 = PriorityMedium ∧
    convertLinearPriority 1 = PriorityUrgent ∧
    convertLinearPriority 2 = PriorityHigh ∧
    convertLinearPriority 3 = PriorityMedium ∧
    convertLinearPriority 4 = PriorityLow ∧
    (∀ q : ℚ, q ≠ 1 → q ≠ 2 → q ≠ 3 → q ≠ 4 → convertLinearPriority q = PriorityMedium) := by
  refine ⟨by norm_num [convertLinearPriority], rfl, by norm_num [convertLinearPriority],
    by norm_num [convertLinearPriority], by norm_num [convertLinearPriority], ?_⟩
  intro q h1 h2 h3 h4
  simp [convertLinearPriority, h1, h2, h3, h4]

/-- Witness for C4 at a number outside the Linear scale. -/
theorem claim_C4_linear_priority_mapping_witness :
    convertLinearPriority 7 = PriorityMedium :=
  claim_C4_linear_priority_mapping.2.2.2.2.2 7
    (by norm_num) (by norm_num) (by norm_num) (by norm_num)

/-- Validity of status and priority is preserved by any sequence of
setter calls. -/
theorem applyTaskOps_valid (ops : List TaskOp) (t : Task)
    (hs : statusIsValid t.status = true) (hp : priorityIsValid t.priority = true) :
    statusIsValid (applyTaskOps t ops).status = true ∧
    priorityIsValid (applyTaskOps t ops).priority = true := by
  induction ops generalizing t with
  | nil => exact ⟨hs, hp⟩
  | cons op rest ih =>
    have hstep : statusIsValid (applyTaskOp t op).status = true ∧
        priorityIsValid (applyTaskOp t op).priority = true := by
      cases op with
      | setStatus s now =>
        by_cases h : statusIsValid s = true
        · simp [applyTaskOp, taskSetStatus, h, hp]
        · simp [applyTaskOp, taskSetStatus, h, hs, hp]
      | setPriority p now =>
        by_cases h : priorityIsValid p = true
        · simp [applyTaskOp, taskSetPriority, h, hs]
        · simp [applyTaskOp, taskSetPriority, h, hs, hp]
    exact ih _ hstep.1 hstep.2

/-- C9: valid setter calls store the value and move `UpdatedAt` to the
mutation instant (advancing it past the prior value whenever the clock
moved forward), invalid setter calls leave the task — including
`UpdatedAt` — entirely unchanged, and a task built by `NewTask` keeps
`Status` and `Priority` inside the enumerations under every sequence of
setter calls. -/
theorem claim_C9_setter_invariants :
    (∀ (t : Task) (s : String) (now : Nat), statusIsValid s = true →
        taskSetStatus t s now = { t with status := s, updatedAt := now }) ∧
    (∀ (t : Task) (s : String) (now : Nat), statusIsValid s = false →
        taskSetStatus t s now = t) ∧
    (∀ (t : Task) (p : String) (now : Nat), priorityIsValid p = true →
        taskSetPriority t p now = { t with priority := p, updatedAt := now }) ∧
    (∀ (t : Task) (p : String) (now : Nat), priorityIsValid p = false →
        taskSetPriority t p now = t) ∧
    (∀ (t : Task) (s : String) (now : Nat), statusIsValid s = true →
        t.updatedAt < now → t.updatedAt < (taskSetStatus t s now).updatedAt) ∧
    (∀ (t : Task) (p : String) (now : Nat), priorityIsValid p = true →
        t.updatedAt < now → t.updatedAt < (taskSetPriority t p now).updatedAt) ∧
    (∀ (title platform : String) (now : Nat) (ops : List TaskOp),
        statusIsValid (applyTaskOps (newTask title platform now) ops).status = true ∧
        priorityIsValid (applyTaskOps (newTask title platform now) ops).priority = true) := by
  refine ⟨?_, ?_, ?_, ?_, ?_, ?_, ?_⟩
  · intro t s now h; simp [taskSetStatus, h]
  · intro t s now h; simp [taskSetStatus, h]
  · intro t p now h; simp [taskSetPriority, h]
  · intro t p now h; simp [taskSetPriority, h]
  · intro t s now h hlt; simpa [taskSetStatus, h] using hlt
  · intro t p now h hlt; simpa [taskSetPriority, h] using hlt
  · intro title platform now ops
    exact applyTaskOps_valid ops (newTask title platform now) (by rfl) (by rfl)

/-- Witness for C9 at concrete inputs: a valid write, an invalid no-op,
a strict `UpdatedAt` advance, and a mixed setter sequence. -/
theorem claim_C9_setter_invariants_witness :
    taskSetStatus (newTask "t" "linear" 0) StatusDone 1 =
      { newTask "t" "linear" 0 with status := StatusDone, updatedAt := 1 } ∧
    taskSetStatus (newTask "t" "linear" 0) "bogus" 1 = newTask "t" "linear" 0 ∧
    (newTask "t" "linear" 0).updatedAt <
      (taskSetStatus (newTask "t" "linear" 0) StatusDone 1).updatedAt ∧
    statusIsValid (applyTaskOps (newTask "t" "linear" 0)
      [TaskOp.setStatus "bogus" 2, TaskOp.setPriority PriorityHigh 3]).status = true :=
  ⟨claim_C9_setter_invariants.1 (newTask "t" "linear" 0) StatusDone 1 (by decide),
   claim_C9_setter_invariants.2.1 (newTask "t" "linear" 0) "bogus" 1 (by decide),
   claim_C9_setter_invariants.2.2.2.2.1 (newTask "t" "linear" 0) StatusDone 1
     (by decide) (by decide),
   (claim_C9_setter_invariants.2.2.2.2.2.2 "t" "linear" 0
     [TaskOp.setStatus "bogus" 2, TaskOp.setPriority PriorityHigh 3]).1⟩

/-- C6 (code evaluation at the failing input): the error-kind helpers
return `false` even on a `PlatformError` carrying exactly the matching
code, because the pointer comparison against the locally allocated
literal can never hit and the local `pe` is never assigned. -/
theorem claim_C6_error_kind_helpers_always_false :
    IsAuthenticationError (some (0, NewPlatformError ErrAuthentication "jira" "T-1" none)) 1
      = false ∧
    IsNotFoundError (some (0, NewPlatformError ErrNotFound "" "" none)) 1 = false ∧
    IsRateLimitError (some (0, NewPlatformError ErrRateLimited "" "" none)) 1 = false ∧
    (NewPlatformError ErrAuthentication "jira" "T-1" none).code = ErrAuthentication ∧
    (∀ (err : Option (Nat × PlatformError)) (freshAddr : Nat),
        (∀ p, err = some p → p.1 ≠ freshAddr) →
        IsAuthenticationError err freshAddr = false ∧
        IsNotFoundError err freshAddr = false ∧
        IsRateLimitError err freshAddr = false) := by
  refine ⟨rfl, rfl, rfl, rfl, ?_⟩
  intro err freshAddr h
  cases err with
  | none => exact ⟨rfl, rfl, rfl⟩
  | some p =>
      have hne : p.1 ≠ freshAddr := h p rfl
      simp [IsAuthenticationError, IsNotFoundError, IsRateLimitError, errKindHelper, hne]

/-- C7: creating a client for an unregistered platform type fails with
`platform_not_supported`, and creating a Jira client from an empty
config fails with `invalid_config` wrapping the validator's complaint. -/
theorem claim_C7_registry_create_errors :
    registryCreate "nonexistent-type" [] =
      .error (NewPlatformError ErrPlatformNotSupported "nonexistent-type" "" none) ∧
    registryCreate "jira" [] =
      .error (NewPlatformError ErrInvalidConfig "jira" ""
        (some "base_url is required and must be a string")) :=
  ⟨rfl, rfl⟩

/-- C8 counterexample: the Linear adapter's `GetTask` on a transport
failure that reports HTTP 404 returns `platform_api_error`, not the
`not_found` the claim requires of every adapter. -/
theorem claim_C8_counterexample_linear_404 :
    exceptErrCode (linearGetTask "TASK-1"
        (.error { status := some 404, msg := "404 Not Found" })) = some ErrPlatformAPI ∧
    ErrPlatformAPI ≠ ErrNotFound :=
  ⟨rfl, by decide⟩

/-- C8 amended: the Jira adapter's `GetTask` maps a 404 transport result
to `not_found` carrying the requested id and every other failure to
`platform_api_error` wrapping the transport error; the Linear adapter
wraps every transport failure — including a 404 — as
`platform_api_error` carrying the requested id. -/
theorem claim_C8_get_task_error_mapping :
    (∀ id msg : String, jiraGetTask id (.err (some 404) msg) =
        .error (NewPlatformError ErrNotFound "jira" id (some "issue not found"))) ∧
    (∀ (id msg : String) (status : Option Nat), status ≠ some 404 →
        jiraGetTask id (.err status msg) =
          .error (NewPlatformError ErrPlatformAPI "jira" id
            (some ("failed to get issue: " ++ msg)))) ∧
    (∀ (id : String) (e : TransportErr), linearGetTask id (.error e) =
        .error (NewPlatformError ErrPlatformAPI "linear" id
          (some ("failed to get issue: " ++ e.msg)))) := by
  refine ⟨?_, ?_, ?_⟩
  · intro id msg; rfl
  · intro id msg status h; simp [jiraGetTask, h]
  · intro id e; rfl

/-- Witness for C8 at concrete transport outcomes. -/
theorem claim_C8_get_task_error_mapping_witness :
    jiraGetTask "TEST-9" (.err (some 404) "nf") =
      .error (NewPlatformError ErrNotFound "jira" "TEST-9" (some "issue not found")) ∧
    jiraGetTask "TEST-9" (.err (some 500) "boom") =
      .error (NewPlatformError ErrPlatformAPI "jira" "TEST-9"
        (some "failed to get issue: boom")) ∧
    linearGetTask "LIN-9" (.error { status := some 404, msg := "nf" }) =
      .error (NewPlatformError ErrPlatformAPI "linear" "LIN-9"
        (some "failed to get issue: nf")) :=
  ⟨claim_C8_get_task_error_mapping.1 "TEST-9" "nf",
   claim_C8_get_task_error_mapping.2.1 "TEST-9" "boom" (some 500) (by decide),
   claim_C8_get_task_error_mapping.2.2 "LIN-9" { status := some 404, msg := "nf" }⟩

/-- Concrete Jira issue used for the C5 counterexample transport. -/
def c5Issue : JiraIssue :=
  { id := "10001"
    key := "TEST-123"
    self := "https://example.atlassian.net/rest/api/2/issue/10001"
    fields := { summary := "S"
                status := some { name := "To Do", statusCategoryKey := "new" } } }

/-- Concrete task whose metadata lacks the `jira_id` key. -/
def c5Task : Task :=
  { id := "TEST-123"
    title := "T"
    status := StatusOpen
    priority := PriorityMedium
    metadata := some [] }

/-- Transport oracle answering every call successfully. -/
def c5Transport : JiraTransport :=
  { getIssue := fun _ => .ok c5Issue
    getTransitions := fun _ => .ok []
    doTransition := fun _ _ => .ok ()
    updateIssue := fun _ _ => .ok (some c5Issue) }

/-- C5 counterexample: the Jira adapter's `UpdateTask` on a task whose
metadata lacks `jira_id` does not return `invalid_input`; it falls back
to the canonical task id as the native identifier and completes the
update. -/
theorem claim_C5_counterexample_jira_fallback :
    taskGetMetadata c5Task "jira_id" = none ∧
    jiraResolveUpdateID c5Task = GoVal.str c5Task.id ∧
    jiraUpdateTask c5Task c5Transport = some (.ok (jiraIssueToTask c5Issue)) :=
  ⟨rfl, rfl, rfl⟩

/-- C5 amended: Linear `UpdateTask` with missing `linear_id` metadata
returns `invalid_input`; Jira `UpdateTask` with missing `jira_id`
metadata falls back to addressing the platform by the canonical task id,
and returns `invalid_input` only when a `jira_id` metadata value is
present but is not a string. -/
theorem claim_C5_missing_native_id :
    (∀ (task : Task) (tr : LinearTransport), taskGetMetadata task "linear_id" = none →
        linearUpdateTask task tr =
          .error (NewPlatformError ErrInvalidInput "linear" task.id
            (some "linear_id not found in task metadata"))) ∧
    (∀ task : Task, taskGetMetadata task "jira_id" = none →
        jiraResolveUpdateID task = GoVal.str task.id) ∧
    (∀ (task : Task) (tr : JiraTransport) (v : GoVal),
        taskGetMetadata task "jira_id" = some v → (∀ s, v ≠ GoVal.str s) →
        jiraUpdateTask task tr =
          some (.error (NewPlatformError ErrInvalidInput "jira" task.id
            (some "invalid jira_id in task metadata")))) := by
  refine ⟨?_, ?_, ?_⟩
  · intro task tr h; unfold linearUpdateTask; rw [h]
  · intro task h; unfold jiraResolveUpdateID; rw [h]
  · intro task tr v h hv
    unfold jiraUpdateTask jiraResolveUpdateID
    rw [h]
    cases v with
    | str s => exact absurd rfl (hv s)
    | num _ => rfl
    | boolean _ => rfl

/-- Task carrying a non-string `jira_id` metadata value. -/
def c5BadTask : Task :=
  { id := "TEST-123"
    title := "T"
    metadata := some [("jira_id", GoVal.num 123)] }

/-- Witness for C5 at concrete inputs covering all three branches. -/
theorem claim_C5_missing_native_id_witness :
    linearUpdateTask { c5Task with id := "LIN-1" }
        { issueUpdate := fun _ _ => .ok { success := true } } =
      .error (NewPlatformError ErrInvalidInput "linear" "LIN-1"
        (some "linear_id not found in task metadata")) ∧
    jiraResolveUpdateID c5Task = GoVal.str "TEST-123" ∧
    jiraUpdateTask c5BadTask c5Transport =
      some (.error (NewPlatformError ErrInvalidInput "jira" "TEST-123"
        (some "invalid jira_id in task metadata"))) :=
  ⟨claim_C5_missing_native_id.1 { c5Task with id := "LIN-1" }
      { issueUpdate := fun _ _ => .ok { success := true } } rfl,
   claim_C5_missing_native_id.2.1 c5Task rfl,
   claim_C5_missing_native_id.2.2 c5BadTask c5Transport (GoVal.num 123) rfl
     (fun _ h => GoVal.noConfusion h)⟩

/-- C10: the outbound Linear update payload holds exactly the title,
description and priority keys, and the whole `UpdateTask` outcome is
unchanged under arbitrary variation of the task's status, assignee,
labels, project id and due date — a requested status change is never
transmitted. -/
theorem claim_C10_linear_update_payload_frame :
    (∀ task : Task, (linearUpdateInput task).map Prod.fst =
        ["title", "description", "priority"]) ∧
    (∀ (t₁ t₂ : Task) (tr : LinearTransport),
        t₁.title = t₂.title → t₁.description = t₂.description →
        t₁.priority = t₂.priority → t₁.id = t₂.id → t₁.metadata = t₂.metadata →
        linearUpdateTask t₁ tr = linearUpdateTask t₂ tr) := by
  constructor
  · intro task; rfl
  · intro t₁ t₂ tr h1 h2 h3 h4 h5
    unfold linearUpdateTask linearUpdateInput taskGetMetadata
    rw [h1, h2, h3, h4, h5]

/-- Witness for C10: two tasks agreeing only on title, description,
priority, id and metadata — and differing in status, labels, project and
due date — produce the same update outcome. -/
theorem claim_C10_linear_update_payload_frame_witness :
    (linearUpdateInput c5Task).map Prod.fst = ["title", "description", "priority"] ∧
    linearUpdateTask
        { id := "LIN-1", title := "T", description := "D", priority := PriorityHigh,
          status := StatusOpen, metadata := some [("linear_id", GoVal.str "abc")] }
        { issueUpdate := fun _ _ => .ok { success := true } } =
      linearUpdateTask
        { id := "LIN-1", title := "T", description := "D", priority := PriorityHigh,
          status := StatusDone, labels := ["x"], projectID := "p", dueDate := some 5,
          metadata := some [("linear_id", GoVal.str "abc")] }
        { issueUpdate := fun _ _ => .ok { success := true } } :=
  ⟨claim_C10_linear_update_payload_frame.1 c5Task,
   claim_C10_linear_update_payload_frame.2
     { id := "LIN-1", title := "T", description := "D", priority := PriorityHigh,
       status := StatusOpen, metadata := some [("linear_id", GoVal.str "abc")] }
     { id := "LIN-1", title := "T", description := "D", priority := PriorityHigh,
       status := StatusDone, labels := ["x"], projectID := "p", dueDate := some 5,
       metadata := some [("linear_id", GoVal.str "abc")] }
     { issueUpdate := fun _ _ => .ok { success := true } } rfl rfl rfl rfl rfl⟩

end OpenTask
